import Mathlib

/-!
Shallow embedding of the node-proxy repository.

The repository has two source files:

* `src/index.js` — a forward proxy: an allowlist matcher
  (`isDomainAllowed`), an HTTP-forwarding request handler (parse the
  request target as an absolute URL, authorize it, copy headers minus
  hop-by-hop / proxy-control fields, inject a default `User-Agent`,
  issue one outbound request, relay the upstream status and sanitized
  headers), and a `CONNECT` tunnel handler (split the target on `:`,
  authorize, `net.connect`, acknowledge with a fixed 200 line, replay
  head bytes, pipe both directions, with error handlers linking the
  two socket lifetimes).

* an unnamed redirect-only variant (an express app): percent-decode the
  request path, parse it as a URL, and answer 302 with a `Location`
  header (plus fixed browser-identity response headers) when the
  hostname is allowed, 403 when it is not, 400 when decoding/parsing
  throws.

Effectful handlers are embedded as pure functions from their inputs
(parse results, upstream outcomes) to the list of externally visible
events they perform, in program order.
-/

namespace NodeProxy

/-- JS `s.endsWith(t)`: `t` is a suffix of `s`, compared code unit by
code unit (exact, case-sensitive). -/
def jsEndsWith (s t : String) : Bool :=
  t.data.isSuffixOf s.data

/-- JS `s.toLowerCase()` on the ASCII header names the source feeds it:
lowercase each character. -/
def jsToLower (s : String) : String :=
  String.mk (s.data.map Char.toLower)

/-- JS `s.split(sep)` for a one-character separator, on the character
list: split at every occurrence, keeping empty pieces. -/
def splitOnChar (sep : Char) : List Char → List (List Char)
  | [] => [[]]
  | c :: rest =>
    let r := splitOnChar sep rest
    if c == sep then [] :: r
    else
      match r with
      | [] => [[c]]
      | h :: t => (c :: h) :: t

/-- JS `s.slice(1)`: drop the first character. -/
def jsSliceOne (s : String) : String :=
  String.mk (s.data.drop 1)

/-- The allowlist constant `ALLOWED_PROXY_DOMAINS` of `src/index.js`. -/
def ALLOWED_PROXY_DOMAINS : List String :=
  ["youtube.com", "googlevideo.com", "ytimg.com", "youtu.be", ".googlevideo.com"]

/-- `isDomainAllowed` from `src/index.js`, generalised over the
allowlist the source closes over:
`domains.some(domain => hostname.endsWith(domain))`. -/
def isDomainAllowed (hostname : String) (domains : List String) : Bool :=
  domains.any (fun d => jsEndsWith hostname d)

/-- A suffix test on strings, stated structurally: some prefix `p`
concatenated with `t` gives `s`. -/
def IsStringSuffix (t s : String) : Prop :=
  ∃ p : String, p ++ t = s

theorem jsEndsWith_iff (s t : String) :
    jsEndsWith s t = true ↔ IsStringSuffix t s := by
  unfold jsEndsWith IsStringSuffix
  rw [List.isSuffixOf_iff_suffix]
  constructor
  · rintro ⟨l, hl⟩
    exact ⟨⟨l⟩, String.ext (by simpa using hl)⟩
  · rintro ⟨p, hp⟩
    exact ⟨p.data, by simpa using congrArg String.data hp⟩

/-- C1: `isDomainAllowed(h, A)` is true iff some entry of `A` is a
suffix of `h` under exact case-sensitive comparison, and the two
concrete examples of the spec hold. -/
theorem c1_isDomainAllowed_iff_suffix :
    (∀ (h : String) (A : List String),
        isDomainAllowed h A = true ↔ ∃ d ∈ A, IsStringSuffix d h) ∧
    isDomainAllowed "x.youtube.com" ["youtube.com"] = true ∧
    isDomainAllowed "evil.com" ["youtube.com"] = false := by
  refine ⟨?_, by decide, by decide⟩
  intro h A
  unfold isDomainAllowed
  rw [List.any_eq_true]
  constructor
  · rintro ⟨d, hd, hsuf⟩
    exact ⟨d, hd, (jsEndsWith_iff h d).mp hsuf⟩
  · rintro ⟨d, hd, hsuf⟩
    exact ⟨d, hd, (jsEndsWith_iff h d).mpr hsuf⟩

/-! ### Header maps

Node delivers inbound request headers as an object whose keys it has
normalised to lowercase; we embed header maps as association lists of
(name, value) pairs so casing and order are explicit. -/

abbrev Headers := List (String × String)

/-- The nine header names the request-copy loop of `src/index.js` skips,
compared against `header.toLowerCase()`. -/
def strippedRequestHeaderNames : List String :=
  ["proxy-connection", "proxy-authenticate", "proxy-authorization",
   "connection", "keep-alive", "transfer-encoding", "te", "trailer", "upgrade"]

/-- The copy loop `for (const header in req.headers)` of `src/index.js`:
keep every pair whose lowercased name is not in the skip set. -/
def copyRequestHeaders (hs : Headers) : Headers :=
  hs.filter (fun p => !(strippedRequestHeaderNames.contains (jsToLower p.1)))

/-- JS property read `headers[k]` (exact key). -/
def lookupHeader (hs : Headers) (k : String) : Option String :=
  (hs.find? (fun p => p.1 == k)).map (fun p => p.2)

/-- The fixed browser identity string of `src/index.js`. -/
def defaultUserAgent : String :=
  "Mozilla/5.0 (Windows NT 10.0; Win64; x64) AppleWebKit/537.36 (KHTML, like Gecko) Chrome/91.0.4472.124 Safari/537.36"

/-- JS falsiness of a property read used by
`if (!requestOptions.headers['user-agent'])`: missing, or the empty
string. -/
def headerFalsy (o : Option String) : Bool :=
  match o with
  | none => true
  | some s => s.isEmpty

/-- The outbound header map built by the forwarder: the copy loop, then
the conditional `User-Agent` injection. -/
def sanitizeOutbound (hs : Headers) : Headers :=
  if headerFalsy (lookupHeader (copyRequestHeaders hs) "user-agent") then
    copyRequestHeaders hs ++ [("User-Agent", defaultUserAgent)]
  else copyRequestHeaders hs

/-- The six keys the response relay of `src/index.js` `delete`s from the
spread copy of `proxyRes.headers` (exact lowercase keys; Node normalises
response header names to lowercase). -/
def strippedResponseHeaderKeys : List String :=
  ["transfer-encoding", "connection", "keep-alive", "te", "trailer", "upgrade"]

/-- The response-header sanitisation: `{...proxyRes.headers}` minus the
six deleted keys. -/
def sanitizeInbound (hs : Headers) : Headers :=
  hs.filter (fun p => !(strippedResponseHeaderKeys.contains p.1))

/-! ### The HTTP-forwarding request handler -/

/-- The fields of a WHATWG `URL` the handler reads. `port` is the string
field of the parsed URL (empty when the URL carries no explicit port). -/
structure ParsedUrl where
  protocol : String
  hostname : String
  port : String
  pathname : String
  search : String
deriving DecidableEq, Repr

/-- `parsedUrl.port || (parsedUrl.protocol === 'https:' ? 443 : 80)`. -/
def effectivePort (u : ParsedUrl) : String :=
  if u.port.isEmpty then (if u.protocol = "https:" then "443" else "80") else u.port

/-- The `requestOptions` object passed to `http.request`/`https.request`. -/
structure RequestOptions where
  hostname : String
  port : String
  path : String
  method : String
  headers : Headers
deriving DecidableEq, Repr

/-- An upstream response: status code and header map. -/
structure UpstreamResponse where
  statusCode : Nat
  headers : Headers
deriving DecidableEq, Repr

/-- Outcome of the single outbound request attempt: a response, or a
transport error (the `proxyReq.on('error')` case). -/
inductive UpstreamResult where
  | ok (resp : UpstreamResponse)
  | err
deriving DecidableEq, Repr

/-- Externally visible actions of the HTTP-forwarding handler, in
program order. -/
inductive HttpEvent where
  | respond (status : Nat) (headers : Headers) (body : String)
  | outboundRequest (opts : RequestOptions)
  | relay (status : Nat) (headers : Headers)
  | pipeBody
deriving DecidableEq, Repr

/-- The request handler of `http.createServer` in `src/index.js`, as a
function of the `new URL(req.url)` parse result (`none` when the
constructor throws), the request method and headers, the allowlist, and
the outcome of the outbound attempt. -/
def httpHandler (parsed : Option ParsedUrl) (method : String) (reqHeaders : Headers)
    (domains : List String) (u : UpstreamResult) : List HttpEvent :=
  match parsed with
  | none =>
      [.respond 400 [("Content-Type", "text/plain")]
        "Bad Request: Invalid URL format for HTTP proxying."]
  | some pu =>
      if !(isDomainAllowed pu.hostname domains) then
        [.respond 403 [("Content-Type", "text/plain")]
          "Forbidden: Not an allowed destination for HTTP proxying."]
      else
        let opts : RequestOptions :=
          ⟨pu.hostname, effectivePort pu, pu.pathname ++ pu.search, method,
            sanitizeOutbound reqHeaders⟩
        match u with
        | .err =>
            [.outboundRequest opts,
             .respond 500 [("Content-Type", "text/plain")] "Proxy error accessing destination."]
        | .ok r =>
            [.outboundRequest opts,
             .relay r.statusCode (sanitizeInbound r.headers),
             .pipeBody]

/-- Number of outbound request attempts in a trace. -/
def countOutbound (es : List HttpEvent) : Nat :=
  es.countP (fun e => match e with | .outboundRequest _ => true | _ => false)

/-! ### The CONNECT tunnel handler -/

/-- JS `parseInt(s, 10)`: skip leading whitespace, read an optional
sign, then the longest prefix of decimal digits; `none` (JS `NaN`) when
no digit follows. -/
def parseIntJS (s : String) : Option Int :=
  let cs := s.data.dropWhile (fun c => c == ' ' || c == '\t' || c == '\n' || c == '\r')
  let signAndRest : Int × List Char :=
    match cs with
    | '-' :: rest => (-1, rest)
    | '+' :: rest => (1, rest)
    | _ => (1, cs)
  let ds := signAndRest.2.takeWhile (fun c => c.isDigit)
  if ds.isEmpty then none
  else some (signAndRest.1 * ((ds.foldl (fun a c => a * 10 + (c.toNat - 48)) 0 : Nat) : Int))

/-- `req.url.split(':')` of the connect handler. -/
def connectParts (target : String) : List String :=
  (splitOnChar ':' target.data).map (fun cs => String.mk cs)

/-- The destructured `hostname`: the part before the first colon. -/
def connectHost (target : String) : String :=
  (connectParts target).headD ""

/-- The destructured `port`: the part between the first and second
colon, if any. -/
def connectPortString (target : String) : Option String :=
  (connectParts target)[1]?

/-- `parseInt(port, 10) || 443`: a missing second part, a non-numeric
one, or the value `0` all fall back to `443`. -/
def connectPort (target : String) : Int :=
  match (connectPortString target).bind parseIntJS with
  | none => 443
  | some n => if n = 0 then 443 else n

/-- Externally visible actions of the connect handler, in program
order. -/
inductive ConnectEvent where
  | clientWrite (s : String)
  | clientEnd
  | serverConnect (host : String) (port : Int)
  | serverWrite (s : String)
  | pipeClientToServer
  | pipeServerToClient
deriving DecidableEq, Repr

/-- Outcome of the single `net.connect` attempt: the connect callback
fires, or the socket errors (with the client stream still writable or
not). -/
inductive NetResult where
  | connected
  | failed (clientWritable : Bool)
deriving DecidableEq, Repr

/-- The exact acknowledgement written on tunnel establishment. -/
def establishedResponse : String :=
  "HTTP/1.1 200 Connection Established\r\nProxy-Agent: Node.js-Proxy\r\n\r\n"

/-- The `proxyServer.on('connect')` handler of `src/index.js`, as a
function of the CONNECT target, the buffered head bytes, the allowlist,
and the outcome of the connection attempt. The guard
`!hostname || !targetPort || isNaN(targetPort)` is embedded literally
in its first two disjuncts; the `isNaN` disjunct cannot fire because
`parseInt(port, 10) || 443` never leaves `NaN` in `targetPort`. -/
def connectHandler (target head : String) (domains : List String)
    (r : NetResult) : List ConnectEvent :=
  let hostname := connectHost target
  let targetPort := connectPort target
  if hostname.isEmpty || targetPort == 0 then
    [.clientWrite "HTTP/1.1 400 Bad Request\r\n\r\n", .clientEnd]
  else if !(isDomainAllowed hostname domains) then
    [.clientWrite "HTTP/1.1 403 Forbidden\r\n\r\n", .clientEnd]
  else
    match r with
    | .connected =>
        [.serverConnect hostname targetPort,
         .clientWrite establishedResponse,
         .serverWrite head,
         .pipeClientToServer,
         .pipeServerToClient]
    | .failed w =>
        [.serverConnect hostname targetPort] ++
          (if w then
            [.clientWrite "HTTP/1.1 500 Internal Server Error\r\n\r\n", .clientEnd]
          else [])

/-- Number of `net.connect` attempts in a trace. -/
def countConnects (es : List ConnectEvent) : Nat :=
  es.countP (fun e => match e with | .serverConnect _ _ => true | _ => false)

/-! ### Tunnel lifetime

Once the tunnel is relaying, `src/index.js` has installed: the two
pipes (`clientSocket.pipe(serverSocket)` and back, whose default
end-propagation ends the destination when the source stream ends), the
`serverSocket` error handler (write 500 and end the client when still
writable), and the `clientSocket` error handler (end the server when
still writable); an erroring socket is itself destroyed by the
runtime. -/

structure TunnelState where
  clientOpen : Bool
  serverOpen : Bool
deriving DecidableEq, Repr

/-- A terminating occurrence on one of the two sockets. -/
inductive TunnelEvent where
  | clientEnd
  | serverEnd
  | clientError
  | serverError
deriving DecidableEq, Repr

/-- Effect of one terminating occurrence plus the handlers the source
installed for it. -/
def tunnelStep (s : TunnelState) : TunnelEvent → TunnelState
  | .clientEnd => ⟨false, false⟩
  | .serverEnd => ⟨false, false⟩
  | .clientError => ⟨false, if s.serverOpen then false else s.serverOpen⟩
  | .serverError => ⟨if s.clientOpen then false else s.clientOpen, false⟩

/-- A state is half-open when exactly one endpoint is still open. -/
def halfOpen (s : TunnelState) : Bool :=
  s.clientOpen != s.serverOpen

/-! ### The redirect-only variant (the express app) -/

/-- The allowlist of the redirect variant. -/
def ALLOWED_DOMAINS : List String :=
  ["youtube.com", "googlevideo.com", "ytimg.com", "youtu.be"]

/-- An express response: final status, the headers set via `setHeader`,
and the `send` body if any. The variant performs no outbound I/O. -/
structure RedirectResult where
  status : Nat
  headers : Headers
  body : Option String
deriving DecidableEq, Repr

/-- The six `setHeader` calls of the 302 path, in source order. -/
def redirectIdentityHeaders (decodedUrl : String) : Headers :=
  [("Location", decodedUrl),
   ("User-Agent", "Mozilla/5.0 (Windows NT 10.0; Win64; x64)"),
   ("Referer", "https://www.youtube.com/"),
   ("Origin", "https://www.youtube.com"),
   ("Accept-Language", "en-US,en;q=0.9"),
   ("Connection", "keep-alive")]

/-- The `app.get('/*')` handler of the redirect variant, as a function
of the request path and of the results of `decodeURIComponent` and
`new URL` (`none` when the call throws, landing in the catch block). -/
def redirectHandler (path : String) (decode : String → Option String)
    (parse : String → Option ParsedUrl) : RedirectResult :=
  match decode (jsSliceOne path) with
  | none => ⟨400, [], some "Invalid redirect request."⟩
  | some decodedUrl =>
    match parse decodedUrl with
    | none => ⟨400, [], some "Invalid redirect request."⟩
    | some pu =>
      if !(isDomainAllowed pu.hostname ALLOWED_DOMAINS) then
        ⟨403, [], some "⛔ Blocked: Not an allowed destination"⟩
      else
        ⟨302, redirectIdentityHeaders decodedUrl, none⟩

/-! ### Helper lemmas -/

theorem connectPort_ne_zero (target : String) : connectPort target ≠ 0 := by
  unfold connectPort
  cases h : (connectPortString target).bind parseIntJS with
  | none => simp
  | some n =>
      simp only
      split
      · simp
      · assumption

theorem connectHost_isEmpty_false {target : String} (h : connectHost target ≠ "") :
    (connectHost target).isEmpty = false := by
  cases hh : (connectHost target).isEmpty
  · rfl
  · exact absurd ((String.isEmpty_iff _).mp hh) h

theorem connectPort_beq_zero_false (target : String) : (connectPort target == 0) = false := by
  simpa using connectPort_ne_zero target

/-- C2: a request whose parsed destination hostname the allowlist
rejects gets a 403 (plain-text body on the HTTP path, the bare
`HTTP/1.1 403 Forbidden` line then socket close on the CONNECT path)
and no outbound connection is ever opened. -/
theorem c2_forbidden_no_upstream :
    (∀ (pu : ParsedUrl) (method : String) (hs : Headers) (domains : List String)
        (u : UpstreamResult),
      isDomainAllowed pu.hostname domains = false →
      httpHandler (some pu) method hs domains u =
        [.respond 403 [("Content-Type", "text/plain")]
          "Forbidden: Not an allowed destination for HTTP proxying."] ∧
      countOutbound (httpHandler (some pu) method hs domains u) = 0) ∧
    (∀ (target head : String) (domains : List String) (r : NetResult),
      connectHost target ≠ "" →
      isDomainAllowed (connectHost target) domains = false →
      connectHandler target head domains r =
        [.clientWrite "HTTP/1.1 403 Forbidden\r\n\r\n", .clientEnd] ∧
      countConnects (connectHandler target head domains r) = 0) := by
  constructor
  · intro pu method hs domains u hallow
    have heq : httpHandler (some pu) method hs domains u =
        [.respond 403 [("Content-Type", "text/plain")]
          "Forbidden: Not an allowed destination for HTTP proxying."] := by
      unfold httpHandler
      simp [hallow]
    exact ⟨heq, by rw [heq]; rfl⟩
  · intro target head domains r hne hallow
    have heq : connectHandler target head domains r =
        [.clientWrite "HTTP/1.1 403 Forbidden\r\n\r\n", .clientEnd] := by
      unfold connectHandler
      simp [connectHost_isEmpty_false hne, connectPort_beq_zero_false, hallow]
    exact ⟨heq, by rw [heq]; rfl⟩

theorem c2_forbidden_no_upstream_witness :
    httpHandler (some ⟨"http:", "evil.com", "", "/", ""⟩) "GET" [] ALLOWED_PROXY_DOMAINS .err =
      [.respond 403 [("Content-Type", "text/plain")]
        "Forbidden: Not an allowed destination for HTTP proxying."] ∧
    connectHandler "evil.com:443" "" ALLOWED_PROXY_DOMAINS .connected =
      [.clientWrite "HTTP/1.1 403 Forbidden\r\n\r\n", .clientEnd] :=
  ⟨(c2_forbidden_no_upstream.1 ⟨"http:", "evil.com", "", "/", ""⟩ "GET" []
      ALLOWED_PROXY_DOMAINS .err (by decide)).1,
   (c2_forbidden_no_upstream.2 "evil.com:443" "" ALLOWED_PROXY_DOMAINS .connected
      (by decide) (by decide)).1⟩

/-- C3 counterexample: `CONNECT youtube.com:abc` carries a non-numeric
port, yet the handler does not answer 400 with a closed socket — it
falls back to port 443 and opens the outbound connection. -/
theorem c3_counterexample_nonnumeric_port :
    connectHandler "youtube.com:abc" "" ALLOWED_PROXY_DOMAINS .connected =
      [.serverConnect "youtube.com" 443,
       .clientWrite establishedResponse,
       .serverWrite "",
       .pipeClientToServer,
       .pipeServerToClient] ∧
    connectHandler "youtube.com:abc" "" ALLOWED_PROXY_DOMAINS .connected ≠
      [.clientWrite "HTTP/1.1 400 Bad Request\r\n\r\n", .clientEnd] ∧
    countConnects (connectHandler "youtube.com:abc" "" ALLOWED_PROXY_DOMAINS .connected) = 1 :=
  ⟨by decide, by decide, by decide⟩

/-- C3 (amended): an unparseable target on the non-CONNECT path yields
400 before any allowlist check or outbound request; on the CONNECT path
the target is split on the first colon, a missing, non-numeric or zero
port defaults to 443, and exactly the targets with an empty host part
yield the bare `HTTP/1.1 400 Bad Request` line, a closed client socket,
and no outbound connection. -/
theorem c3_amended_bad_request :
    (∀ (method : String) (hs : Headers) (domains : List String) (u : UpstreamResult),
      httpHandler none method hs domains u =
        [.respond 400 [("Content-Type", "text/plain")]
          "Bad Request: Invalid URL format for HTTP proxying."]) ∧
    (∀ (target head : String) (domains : List String) (r : NetResult),
      connectHost target = "" →
      connectHandler target head domains r =
        [.clientWrite "HTTP/1.1 400 Bad Request\r\n\r\n", .clientEnd] ∧
      countConnects (connectHandler target head domains r) = 0) ∧
    (∀ (target head : String) (domains : List String) (r : NetResult),
      connectHost target ≠ "" →
      connectHandler target head domains r ≠
        [.clientWrite "HTTP/1.1 400 Bad Request\r\n\r\n", .clientEnd]) := by
  refine ⟨?_, ?_, ?_⟩
  · intro method hs domains u
    rfl
  · intro target head domains r h0
    have h1 : (connectHost target).isEmpty = true := by rw [h0]; rfl
    have heq : connectHandler target head domains r =
        [.clientWrite "HTTP/1.1 400 Bad Request\r\n\r\n", .clientEnd] := by
      unfold connectHandler
      simp [h1]
    exact ⟨heq, by rw [heq]; rfl⟩
  · intro target head domains r h0 heq
    have h1 := connectHost_isEmpty_false h0
    have h2 := connectPort_beq_zero_false target
    unfold connectHandler at heq
    simp only [h1, h2, Bool.or_self, Bool.false_or, Bool.or_false] at heq
    cases ha : isDomainAllowed (connectHost target) domains with
    | false =>
        rw [ha] at heq
        simp only [Bool.not_false, if_true] at heq
        exact absurd heq (by decide)
    | true =>
        rw [ha] at heq
        simp only [Bool.not_true, if_false] at heq
        cases r with
        | connected => simp at heq
        | failed w => cases w <;> simp at heq

theorem c3_amended_bad_request_witness :
    httpHandler none "GET" [] ALLOWED_PROXY_DOMAINS .err =
      [.respond 400 [("Content-Type", "text/plain")]
        "Bad Request: Invalid URL format for HTTP proxying."] ∧
    connectHandler ":443" "" ALLOWED_PROXY_DOMAINS .connected =
      [.clientWrite "HTTP/1.1 400 Bad Request\r\n\r\n", .clientEnd] ∧
    connectHandler "youtube.com:443" "" ALLOWED_PROXY_DOMAINS .connected ≠
      [.clientWrite "HTTP/1.1 400 Bad Request\r\n\r\n", .clientEnd] :=
  ⟨c3_amended_bad_request.1 "GET" [] ALLOWED_PROXY_DOMAINS .err,
   (c3_amended_bad_request.2.1 ":443" "" ALLOWED_PROXY_DOMAINS .connected (by decide)).1,
   c3_amended_bad_request.2.2 "youtube.com:443" "" ALLOWED_PROXY_DOMAINS .connected (by decide)⟩

theorem mem_copyRequestHeaders_not_stripped {hs : Headers} {p : String × String}
    (hp : p ∈ copyRequestHeaders hs) :
    strippedRequestHeaderNames.contains (jsToLower p.1) = false := by
  unfold copyRequestHeaders at hp
  have := (List.mem_filter.mp hp).2
  simpa using this

/-- C4: the outbound header map never carries a hop-by-hop or
proxy-control header (compared on the lowercased name), every inbound
header outside that set reaches it with name and value unchanged, and
an inbound `Range` header in particular survives verbatim. -/
theorem c4_sanitizeOutbound_strips_and_preserves :
    (∀ (hs : Headers) (p : String × String), p ∈ sanitizeOutbound hs →
        strippedRequestHeaderNames.contains (jsToLower p.1) = false) ∧
    (∀ (hs : Headers) (p : String × String), p ∈ hs →
        strippedRequestHeaderNames.contains (jsToLower p.1) = false →
        p ∈ sanitizeOutbound hs) ∧
    (∀ (hs : Headers), ("range", "bytes=100-199") ∈ hs →
        ("range", "bytes=100-199") ∈ sanitizeOutbound hs) := by
  have hmem : ∀ (hs : Headers) (p : String × String), p ∈ hs →
      strippedRequestHeaderNames.contains (jsToLower p.1) = false →
      p ∈ sanitizeOutbound hs := by
    intro hs p hp hro
    have hcopy : p ∈ copyRequestHeaders hs := by
      unfold copyRequestHeaders
      exact List.mem_filter.mpr ⟨hp, by simpa using hro⟩
    unfold sanitizeOutbound
    split
    · exact List.mem_append_left _ hcopy
    · exact hcopy
  refine ⟨?_, hmem, ?_⟩
  · intro hs p hp
    unfold sanitizeOutbound at hp
    split at hp
    · rcases List.mem_append.mp hp with hc | hu
      · exact mem_copyRequestHeaders_not_stripped hc
      · have : p = ("User-Agent", defaultUserAgent) := by simpa using hu
        subst this
        decide
    · exact mem_copyRequestHeaders_not_stripped hp
  · intro hs hp
    exact hmem hs ("range", "bytes=100-199") hp (by decide)

theorem c4_sanitizeOutbound_witness :
    ("range", "bytes=100-199") ∈
      sanitizeOutbound [("range", "bytes=100-199"), ("connection", "close")] :=
  c4_sanitizeOutbound_strips_and_preserves.2.2
    [("range", "bytes=100-199"), ("connection", "close")] (by decide)

/-- C5: the relay on the HTTP-forwarding path keeps the upstream status
code, drops exactly the six hop-by-hop fields from the upstream headers
(whose names Node delivers lowercased), passes every other field
through unchanged, and a 206 with `Content-Range` reaches the client
untouched. -/
theorem c5_sanitizeInbound_passthrough :
    (∀ (hs : Headers), (∀ p ∈ hs, jsToLower p.1 = p.1) →
      ((∀ p ∈ sanitizeInbound hs,
          strippedResponseHeaderKeys.contains (jsToLower p.1) = false ∧ p ∈ hs) ∧
       (∀ p ∈ hs, strippedResponseHeaderKeys.contains (jsToLower p.1) = false →
          p ∈ sanitizeInbound hs))) ∧
    (∀ (pu : ParsedUrl) (method : String) (hs : Headers) (domains : List String)
        (r : UpstreamResponse),
      isDomainAllowed pu.hostname domains = true →
      HttpEvent.relay r.statusCode (sanitizeInbound r.headers) ∈
        httpHandler (some pu) method hs domains (.ok r)) ∧
    sanitizeInbound
        [("content-type", "video/mp4"), ("content-length", "100"),
         ("content-range", "bytes 100-199/1000"), ("accept-ranges", "bytes")] =
      [("content-type", "video/mp4"), ("content-length", "100"),
       ("content-range", "bytes 100-199/1000"), ("accept-ranges", "bytes")] := by
  refine ⟨?_, ?_, rfl⟩
  · intro hs hlow
    constructor
    · intro p hp
      unfold sanitizeInbound at hp
      have h2 := List.mem_filter.mp hp
      refine ⟨?_, h2.1⟩
      rw [hlow p h2.1]
      simpa using h2.2
    · intro p hp hns
      unfold sanitizeInbound
      refine List.mem_filter.mpr ⟨hp, ?_⟩
      rw [hlow p hp] at hns
      simpa using hns
  · intro pu method hs domains r hallow
    unfold httpHandler
    simp [hallow]

theorem c5_sanitizeInbound_witness :
    (("content-range", "bytes 100-199/1000") ∈
        sanitizeInbound [("connection", "close"), ("content-range", "bytes 100-199/1000")]) ∧
    HttpEvent.relay 206 (sanitizeInbound [("content-range", "bytes 100-199/1000")]) ∈
      httpHandler (some ⟨"https:", "www.youtube.com", "", "/v", ""⟩) "GET" []
        ALLOWED_PROXY_DOMAINS (.ok ⟨206, [("content-range", "bytes 100-199/1000")]⟩) :=
  ⟨(c5_sanitizeInbound_passthrough.1
        [("connection", "close"), ("content-range", "bytes 100-199/1000")] (by decide)).2
      ("content-range", "bytes 100-199/1000") (by decide) (by decide),
   c5_sanitizeInbound_passthrough.2.1 ⟨"https:", "www.youtube.com", "", "/v", ""⟩ "GET" []
      ALLOWED_PROXY_DOMAINS ⟨206, [("content-range", "bytes 100-199/1000")]⟩ (by decide)⟩

/-- C6: an authorized CONNECT whose destination connection succeeds
gets exactly the fixed
`HTTP/1.1 200 Connection Established\r\nProxy-Agent: Node.js-Proxy\r\n\r\n`
acknowledgement, then the head bytes buffered during the handshake are
written to the destination, and only then are the two relay pipes
installed, with no transformation in between. -/
theorem c6_tunnel_establishment (target head : String) (domains : List String)
    (hne : connectHost target ≠ "")
    (hallow : isDomainAllowed (connectHost target) domains = true) :
    connectHandler target head domains .connected =
      [.serverConnect (connectHost target) (connectPort target),
       .clientWrite establishedResponse,
       .serverWrite head,
       .pipeClientToServer,
       .pipeServerToClient] ∧
    establishedResponse =
      "HTTP/1.1 200 Connection Established\r\nProxy-Agent: Node.js-Proxy\r\n\r\n" := by
  refine ⟨?_, rfl⟩
  unfold connectHandler
  simp [connectHost_isEmpty_false hne, connectPort_beq_zero_false, hallow]

theorem c6_tunnel_establishment_witness :
    connectHandler "youtube.com:443" "abc" ALLOWED_PROXY_DOMAINS .connected =
      [.serverConnect (connectHost "youtube.com:443") (connectPort "youtube.com:443"),
       .clientWrite establishedResponse,
       .serverWrite "abc",
       .pipeClientToServer,
       .pipeServerToClient] :=
  (c6_tunnel_establishment "youtube.com:443" "abc" ALLOWED_PROXY_DOMAINS
      (by decide) (by decide)).1

/-- C7 counterexample: on a forwarded request with no inbound headers
the outbound header map is exactly the injected `User-Agent` and
nothing else — the fixed `Referer`, `Origin`, `Accept-Language` and
`Connection` identity values the claim promises are never added by the
forwarder. -/
theorem c7_counterexample_no_identity_injection :
    sanitizeOutbound [] = [("User-Agent", defaultUserAgent)] ∧
    ¬ (("Referer", "https://www.youtube.com/") ∈ sanitizeOutbound []) ∧
    ¬ (("Origin", "https://www.youtube.com") ∈ sanitizeOutbound []) ∧
    ¬ (("Accept-Language", "en-US,en;q=0.9") ∈ sanitizeOutbound []) ∧
    ¬ (("Connection", "keep-alive") ∈ sanitizeOutbound []) :=
  ⟨rfl, by decide, by decide, by decide, by decide⟩

/-- C7 (amended): the forwarder injects only `User-Agent` — added
exactly when the filtered inbound headers carry no (non-empty)
`user-agent` — and never replaces a surviving caller-supplied header;
the fixed `Referer`/`Origin`/`Accept-Language`/`Connection` identity
values appear only in the redirect-only variant, set unconditionally as
response headers of its 302 answer. -/
theorem c7_amended_user_agent_only :
    (∀ hs : Headers,
      headerFalsy (lookupHeader (copyRequestHeaders hs) "user-agent") = true →
      sanitizeOutbound hs = copyRequestHeaders hs ++ [("User-Agent", defaultUserAgent)]) ∧
    (∀ hs : Headers,
      headerFalsy (lookupHeader (copyRequestHeaders hs) "user-agent") = false →
      sanitizeOutbound hs = copyRequestHeaders hs) ∧
    (∀ (hs : Headers) (p : String × String),
      p ∈ copyRequestHeaders hs → p ∈ sanitizeOutbound hs) ∧
    (∀ (path decodedUrl : String) (decode : String → Option String)
        (parse : String → Option ParsedUrl) (pu : ParsedUrl),
      decode (jsSliceOne path) = some decodedUrl →
      parse decodedUrl = some pu →
      isDomainAllowed pu.hostname ALLOWED_DOMAINS = true →
      (redirectHandler path decode parse).headers = redirectIdentityHeaders decodedUrl) := by
  refine ⟨?_, ?_, ?_, ?_⟩
  · intro hs h
    unfold sanitizeOutbound
    simp [h]
  · intro hs h
    unfold sanitizeOutbound
    simp [h]
  · intro hs p hp
    unfold sanitizeOutbound
    split
    · exact List.mem_append_left _ hp
    · exact hp
  · intro path decodedUrl decode parse pu hdec hparse hallow
    simp [redirectHandler, hdec, hparse, hallow]

theorem c7_amended_user_agent_only_witness :
    sanitizeOutbound [] = copyRequestHeaders [] ++ [("User-Agent", defaultUserAgent)] ∧
    sanitizeOutbound [("user-agent", "curl/8")] = copyRequestHeaders [("user-agent", "curl/8")] ∧
    ("x-custom", "v") ∈ sanitizeOutbound [("x-custom", "v")] ∧
    (redirectHandler "/https%3A%2F%2Fwww.youtube.com%2Fwatch"
        (fun _ => some "https://www.youtube.com/watch")
        (fun _ => some ⟨"https:", "www.youtube.com", "", "/watch", ""⟩)).headers =
      redirectIdentityHeaders "https://www.youtube.com/watch" :=
  ⟨c7_amended_user_agent_only.1 [] (by decide),
   c7_amended_user_agent_only.2.1 [("user-agent", "curl/8")] (by decide),
   c7_amended_user_agent_only.2.2.1 [("x-custom", "v")] ("x-custom", "v") (by decide),
   c7_amended_user_agent_only.2.2.2 "/https%3A%2F%2Fwww.youtube.com%2Fwatch"
     "https://www.youtube.com/watch"
     (fun _ => some "https://www.youtube.com/watch")
     (fun _ => some ⟨"https:", "www.youtube.com", "", "/watch", ""⟩)
     ⟨"https:", "www.youtube.com", "", "/watch", ""⟩ rfl rfl (by decide)⟩

/-- C8: a transport failure on the single outbound attempt to an
allowed destination yields HTTP 500 — a plain-text diagnostic body on
the HTTP path, the bare `HTTP/1.1 500 Internal Server Error` line then
a closed socket on the CONNECT path when the client stream is still
writable, nothing otherwise — and the trace holds exactly one
connection attempt. -/
theorem c8_upstream_failure_500 :
    (∀ (pu : ParsedUrl) (method : String) (hs : Headers) (domains : List String),
      isDomainAllowed pu.hostname domains = true →
      httpHandler (some pu) method hs domains .err =
        [.outboundRequest ⟨pu.hostname, effectivePort pu, pu.pathname ++ pu.search, method,
            sanitizeOutbound hs⟩,
         .respond 500 [("Content-Type", "text/plain")] "Proxy error accessing destination."] ∧
      countOutbound (httpHandler (some pu) method hs domains .err) = 1) ∧
    (∀ (target head : String) (domains : List String) (w : Bool),
      connectHost target ≠ "" →
      isDomainAllowed (connectHost target) domains = true →
      connectHandler target head domains (.failed w) =
        [.serverConnect (connectHost target) (connectPort target)] ++
          (if w then
            [.clientWrite "HTTP/1.1 500 Internal Server Error\r\n\r\n", .clientEnd]
          else []) ∧
      countConnects (connectHandler target head domains (.failed w)) = 1) := by
  constructor
  · intro pu method hs domains hallow
    have heq : httpHandler (some pu) method hs domains .err =
        [.outboundRequest ⟨pu.hostname, effectivePort pu, pu.pathname ++ pu.search, method,
            sanitizeOutbound hs⟩,
         .respond 500 [("Content-Type", "text/plain")] "Proxy error accessing destination."] := by
      unfold httpHandler
      simp [hallow]
    exact ⟨heq, by rw [heq]; rfl⟩
  · intro target head domains w hne hallow
    have heq : connectHandler target head domains (.failed w) =
        [.serverConnect (connectHost target) (connectPort target)] ++
          (if w then
            [.clientWrite "HTTP/1.1 500 Internal Server Error\r\n\r\n", .clientEnd]
          else []) := by
      unfold connectHandler
      simp [connectHost_isEmpty_false hne, connectPort_beq_zero_false, hallow]
    refine ⟨heq, ?_⟩
    rw [heq]
    cases w <;> rfl

theorem c8_upstream_failure_500_witness :
    httpHandler (some ⟨"https:", "www.youtube.com", "", "/watch", ""⟩) "GET" []
        ALLOWED_PROXY_DOMAINS .err =
      [.outboundRequest ⟨"www.youtube.com", effectivePort ⟨"https:", "www.youtube.com", "", "/watch", ""⟩,
          "/watch" ++ "", "GET", sanitizeOutbound []⟩,
       .respond 500 [("Content-Type", "text/plain")] "Proxy error accessing destination."] ∧
    connectHandler "youtube.com:443" "" ALLOWED_PROXY_DOMAINS (.failed true) =
      [.serverConnect (connectHost "youtube.com:443") (connectPort "youtube.com:443")] ++
        (if true then
          [.clientWrite "HTTP/1.1 500 Internal Server Error\r\n\r\n", .clientEnd]
        else []) :=
  ⟨(c8_upstream_failure_500.1 ⟨"https:", "www.youtube.com", "", "/watch", ""⟩ "GET" []
      ALLOWED_PROXY_DOMAINS (by decide)).1,
   (c8_upstream_failure_500.2 "youtube.com:443" "" ALLOWED_PROXY_DOMAINS true
      (by decide) (by decide)).1⟩

/-- C9: in an established tunnel, any terminating occurrence on either
socket — a clean end (whose pipe propagates the end to the peer) or an
error (whose handler ends the still-writable peer) — leaves both
sockets closed: the session never stays half-open. -/
theorem c9_linked_socket_lifetimes :
    ∀ (s : TunnelState) (e : TunnelEvent),
      tunnelStep s e = ⟨false, false⟩ ∧ halfOpen (tunnelStep s e) = false := by
  intro s e
  cases e <;> cases hc : s.clientOpen <;> cases hh : s.serverOpen <;>
    simp [tunnelStep, halfOpen, hc, hh]

/-- C10: the redirect-only variant answers 302 with `Location` set to
the decoded URL (and no outbound contact — its result type carries no
outbound action) when the decoded path parses to an allowed hostname,
403 when the hostname is not allowed, and 400 when percent-decoding or
URL parsing throws, the latter two with no `Location` header. -/
theorem c10_redirect_variant :
    (∀ (path decodedUrl : String) (decode : String → Option String)
        (parse : String → Option ParsedUrl) (pu : ParsedUrl),
      decode (jsSliceOne path) = some decodedUrl →
      parse decodedUrl = some pu →
      isDomainAllowed pu.hostname ALLOWED_DOMAINS = true →
      (redirectHandler path decode parse).status = 302 ∧
      lookupHeader (redirectHandler path decode parse).headers "Location" = some decodedUrl) ∧
    (∀ (path decodedUrl : String) (decode : String → Option String)
        (parse : String → Option ParsedUrl) (pu : ParsedUrl),
      decode (jsSliceOne path) = some decodedUrl →
      parse decodedUrl = some pu →
      isDomainAllowed pu.hostname ALLOWED_DOMAINS = false →
      redirectHandler path decode parse =
        ⟨403, [], some "⛔ Blocked: Not an allowed destination"⟩ ∧
      lookupHeader (redirectHandler path decode parse).headers "Location" = none) ∧
    (∀ (path : String) (decode : String → Option String)
        (parse : String → Option ParsedUrl),
      decode (jsSliceOne path) = none →
      redirectHandler path decode parse = ⟨400, [], some "Invalid redirect request."⟩ ∧
      lookupHeader (redirectHandler path decode parse).headers "Location" = none) ∧
    (∀ (path decodedUrl : String) (decode : String → Option String)
        (parse : String → Option ParsedUrl),
      decode (jsSliceOne path) = some decodedUrl →
      parse decodedUrl = none →
      redirectHandler path decode parse = ⟨400, [], some "Invalid redirect request."⟩ ∧
      lookupHeader (redirectHandler path decode parse).headers "Location" = none) := by
  refine ⟨?_, ?_, ?_, ?_⟩
  · intro path decodedUrl decode parse pu hdec hparse hallow
    have heq : redirectHandler path decode parse =
        ⟨302, redirectIdentityHeaders decodedUrl, none⟩ := by
      simp [redirectHandler, hdec, hparse, hallow]
    rw [heq]
    exact ⟨rfl, rfl⟩
  · intro path decodedUrl decode parse pu hdec hparse hallow
    have heq : redirectHandler path decode parse =
        ⟨403, [], some "⛔ Blocked: Not an allowed destination"⟩ := by
      simp [redirectHandler, hdec, hparse, hallow]
    exact ⟨heq, by rw [heq]; rfl⟩
  · intro path decode parse hdec
    have heq : redirectHandler path decode parse =
        ⟨400, [], some "Invalid redirect request."⟩ := by
      simp [redirectHandler, hdec]
    exact ⟨heq, by rw [heq]; rfl⟩
  · intro path decodedUrl decode parse hdec hparse
    have heq : redirectHandler path decode parse =
        ⟨400, [], some "Invalid redirect request."⟩ := by
      simp [redirectHandler, hdec, hparse]
    exact ⟨heq, by rw [heq]; rfl⟩

theorem c10_redirect_variant_witness :
    (redirectHandler "/x" (fun _ => some "https://www.youtube.com/watch")
        (fun _ => some ⟨"https:", "www.youtube.com", "", "/watch", ""⟩)).status = 302 ∧
    lookupHeader (redirectHandler "/x" (fun _ => some "https://www.youtube.com/watch")
        (fun _ => some ⟨"https:", "www.youtube.com", "", "/watch", ""⟩)).headers "Location" =
      some "https://www.youtube.com/watch" ∧
    redirectHandler "/y" (fun _ => some "https://evil.com/")
        (fun _ => some ⟨"https:", "evil.com", "", "/", ""⟩) =
      ⟨403, [], some "⛔ Blocked: Not an allowed destination"⟩ ∧
    redirectHandler "/%E0" (fun _ => none) (fun _ => none) =
      ⟨400, [], some "Invalid redirect request."⟩ :=
  ⟨(c10_redirect_variant.1 "/x" "https://www.youtube.com/watch"
      (fun _ => some "https://www.youtube.com/watch")
      (fun _ => some ⟨"https:", "www.youtube.com", "", "/watch", ""⟩)
      ⟨"https:", "www.youtube.com", "", "/watch", ""⟩ rfl rfl (by decide)).1,
   (c10_redirect_variant.1 "/x" "https://www.youtube.com/watch"
      (fun _ => some "https://www.youtube.com/watch")
      (fun _ => some ⟨"https:", "www.youtube.com", "", "/watch", ""⟩)
      ⟨"https:", "www.youtube.com", "", "/watch", ""⟩ rfl rfl (by decide)).2,
   (c10_redirect_variant.2.1 "/y" "https://evil.com/"
      (fun _ => some "https://evil.com/")
      (fun _ => some ⟨"https:", "evil.com", "", "/", ""⟩)
      ⟨"https:", "evil.com", "", "/", ""⟩ rfl rfl (by decide)).1,
   (c10_redirect_variant.2.2.1 "/%E0" (fun _ => none) (fun _ => none) rfl).1⟩

end NodeProxy
